import Mathlib

/-!
A verification development for the universal file-merging core of the
repository (src/core/universal_processor.py, with its collaborators in
src/config.py and src/core/file_manager.py).

The Python code is shallowly embedded: pure computations become Lean
functions over `String`/`List`; results of external library calls
(pypdf page reading, PIL image decoding, openpyxl workbook loading,
filesystem stat, per-encoding text reads) are supplied as explicit
inputs of type `Except`/`Option`, so an input value describes one run
of the code in one environment.  ReportLab canvas drawing is embedded
as the construction of page values: a `showPage` call emits one page
holding exactly the items drawn since the previous `showPage`.
-/

/-- `str.lower()` on the ASCII alphabet used by file extensions
(source: `config.py` line 147 applies `.lower()` to the suffix). -/
def pyLower (s : String) : String := String.mk (s.data.map Char.toLower)

/-- `str.upper()` on the ASCII alphabet (source: `universal_processor.py`
line 249 applies `.upper()` to the suffix). -/
def pyUpper (s : String) : String := String.mk (s.data.map Char.toUpper)

/-- `Path(p).name`: the final path component (chars after the last `/`).
Pathlib's trailing-slash normalization is not modelled; the inputs of
interest are plain file names or `dir/file` paths. -/
def pyName (path : String) : String :=
  String.mk ((path.data.reverse.takeWhile (fun c => c ≠ '/')).reverse)

/-- `Path(p).suffix` of a file *name*: `name[i:]` where `i` is the index of
the last `.`, provided `0 < i < len(name) - 1`; otherwise the empty string. -/
def pyExt (name : String) : String :=
  let cs := name.data
  let tl := cs.reverse.takeWhile (fun c => c ≠ '.')
  if tl.length = cs.length then ""
  else if tl.length = 0 then ""
  else if cs.length - tl.length - 1 = 0 then ""
  else String.mk ('.' :: tl.reverse)

/-- `s.endswith(sfx)`, character-wise (used for `fpath.lower().endswith('.pdf')`
at `universal_processor.py` line 53 and the raw `filepath.endswith(('.xlsx','.xls'))`
at lines 161 and 165). -/
def pyEndsWith (s sfx : String) : Bool := sfx.data.isSuffixOf s.data

/-- `config.SUPPORTED_IMAGE_FORMATS` (config.py lines 27-30). -/
def SUPPORTED_IMAGE_FORMATS : List String :=
  [".png", ".jpg", ".jpeg", ".bmp", ".gif", ".tiff", ".tif", ".webp", ".ico"]

/-- `config.SUPPORTED_TEXT_FORMATS` (config.py lines 33-40). -/
def SUPPORTED_TEXT_FORMATS : List String :=
  [".txt", ".md", ".csv", ".json", ".xml", ".log", ".ini", ".yaml", ".yml",
   ".html", ".htm", ".css", ".js", ".php", ".asp", ".jsx", ".ts",
   ".py", ".java", ".c", ".cpp", ".h", ".cs", ".go", ".rs", ".sh", ".bat", ".sql"]

/-- `config.SUPPORTED_DOCUMENT_FORMATS` (config.py lines 42-44). -/
def SUPPORTED_DOCUMENT_FORMATS : List String := [".pdf", ".docx", ".doc", ".odt"]

/-- `config.SUPPORTED_OFFICE_FORMATS` (config.py lines 47-49). -/
def SUPPORTED_OFFICE_FORMATS : List String := [".xlsx", ".xls", ".pptx", ".ppt"]

/-- `config.SUPPORTED_BINARY_FORMATS` (config.py lines 51-56). -/
def SUPPORTED_BINARY_FORMATS : List String :=
  [".exe", ".msi", ".bin", ".dll", ".zip", ".rar", ".7z", ".tar", ".gz"]

/-- `config.get_file_category` (config.py lines 145-153): categorize by the
lowercased suffix of the path, testing the format sets in source order. -/
def get_file_category (filepath : String) : String :=
  let ext := pyLower (pyExt (pyName filepath))
  if ext ∈ SUPPORTED_IMAGE_FORMATS then "image"
  else if ext ∈ SUPPORTED_TEXT_FORMATS then "text"
  else if ext ∈ SUPPORTED_DOCUMENT_FORMATS then "document"
  else if ext ∈ SUPPORTED_OFFICE_FORMATS then "office"
  else if ext ∈ SUPPORTED_BINARY_FORMATS then "binary"
  else "unknown"

/-- What one `open(filepath, 'r', encoding=enc).read()` attempt inside
`FileManager.read_file_safe` yields in the modelled environment: the decoded
content, a `UnicodeDecodeError` (the loop continues), or any other
exception (the function returns immediately). -/
inductive ReadAttempt where
  | success (content : String)
  | decodeError
  | otherError (msg : String)
deriving DecidableEq, Repr

/-- `FileManager.read_file_safe` (file_manager.py lines 114-126), as a function
of the per-encoding outcomes.  The source iterates the four encodings
`['utf-8', 'latin-1', 'cp1252', 'iso-8859-1']`; `outcomes` lists, in that
order, what each attempted read would produce.  The function never raises:
every failure is returned as `(none, some reason)`. -/
def read_file_safe : List ReadAttempt → Option String × Option String
  | [] => (none, some "Failed to decode file (unknown encoding)")
  | .success c :: _ => (some c, none)
  | .decodeError :: rest => read_file_safe rest
  | .otherError e :: _ => (none, some e)

/-! ### Text pagination (`UniversalProcessor._text_to_pdf_pages`, lines 103-157) -/

/-- `chars_per_line = 90` (universal_processor.py line 130): the wrap width is
this hard-coded literal; no page geometry or font size enters its value. -/
def chars_per_line : Nat := 90

/-- `max_lines = 55` (universal_processor.py line 124, comment: "Approx lines
per A4 page at 10pt"): the page capacity is this hard-coded literal. -/
def max_lines : Nat := 55

/-- `line.replace('\r', '').replace('\t', '    ')` (line 128): drop every
carriage return, then expand each tab to four spaces. -/
def expandTabs : List Char → List Char
  | [] => []
  | c :: rest =>
    if c = '\t' then ' ' :: ' ' :: ' ' :: ' ' :: expandTabs rest
    else c :: expandTabs rest

/-- Sanitize one logical line (universal_processor.py line 128). -/
def sanitizeLine (s : String) : String :=
  String.mk (expandTabs (s.data.filter (fun c => c ≠ '\r')))

/-- Slices `[safe_line[i:i+chars_per_line] for i in range(0, len, chars_per_line)]`
(line 131), computed with a character-count fuel so that the recursion is
structural.  Called with `fuel = cs.length`, each step consumes at least one
character, so the fuel never runs out. -/
def chunksAux : Nat → List Char → List String
  | _, [] => []
  | 0, _ :: _ => []
  | fuel + 1, c :: rest =>
    String.mk ((c :: rest).take chars_per_line)
      :: chunksAux fuel ((c :: rest).drop chars_per_line)

/-- The wrapped chunks of one sanitized line, with the source's `or [""]`
fallback making an empty line contribute one empty physical line (line 131). -/
def wrapChunks (s : String) : List String :=
  match chunksAux s.data.length s.data with
  | [] => [""]
  | l => l

/-- `content.split('\n')` (line 122): split on every newline, keeping empty
pieces; the result is always non-empty. -/
def splitNL : List Char → List String
  | [] => [""]
  | c :: rest =>
    if c = '\n' then "" :: splitNL rest
    else
      match splitNL rest with
      | [] => [String.mk [c]]
      | s :: ss => String.mk (c :: s.data) :: ss

/-- `content.split('\n')` on a `String`. -/
def pySplitLines (content : String) : List String := splitNL content.data

/-- One rendered text page: the header drawn at its top (lines 113-116 and
143-145) plus the physical content lines drawn into its text object. -/
structure TextPage where
  header : String
  lines : List String
deriving DecidableEq, Repr

/-- The header of an item's first text page: `f"File: {name}"` (line 114). -/
def mainHeader (name : String) : String := s!"File: {name}"

/-- The header of a continuation page: `f"File: {name} (Cont.)"` (line 144). -/
def contHeader (name : String) : String := s!"File: {name} (Cont.)"

/-- The pagination loop of `_text_to_pdf_pages` (lines 122-152).  State:
`hdr` is the header already drawn on the current page, `cur` the physical
lines emitted onto it so far (`current_line = cur.length`).  For each logical
line, *all* of its wrapped chunks are appended, and only then is the
page-full check `current_line >= max_lines` made; a full page is flushed
(`drawText`/`showPage`) and a fresh page begins with the continuation header.
After the last logical line the current page is always flushed (lines
151-152), even when no physical line was emitted onto it. -/
def pagGo (name hdr : String) (cur : List String) : List String → List TextPage
  | [] => [⟨hdr, cur⟩]
  | l :: ls =>
    let cur' := cur ++ wrapChunks (sanitizeLine l)
    if max_lines ≤ cur'.length then
      ⟨hdr, cur'⟩ :: pagGo name (contHeader name) [] ls
    else
      pagGo name hdr cur' ls

/-- The pages produced by the pagination core for non-empty content. -/
def textPagesOf (name content : String) : List TextPage :=
  pagGo name (mainHeader name) [] (pySplitLines content)

/-- `_text_to_pdf_pages` (universal_processor.py lines 103-157) up to the page
model: read the content via `read_file_safe`; `if not content: return` makes
both a failed read (`None`) and empty content contribute zero pages and
no exception; otherwise paginate.  `outcomes` supplies the per-encoding
read results (see `read_file_safe`). -/
def text_to_pdf_pages (filepath : String) (outcomes : List ReadAttempt) : List TextPage :=
  match (read_file_safe outcomes).1 with
  | none => []
  | some content => if content = "" then [] else textPagesOf (pyName filepath) content

/-! ### Tabular rendering (`UniversalProcessor._office_to_pdf_pages`, lines 159-212) -/

/-- One worksheet as `openpyxl` delivers it to the renderer: its name and its
rows with `values_only=True`; a cell is `none` for Python `None`, otherwise
the `str()` of its value (stringification of arbitrary cell objects is
environmental and modelled as already applied). -/
structure Worksheet where
  name : String
  rows : List (List (Option String))
deriving DecidableEq, Repr

/-- A loaded workbook: its sheets in `wb.sheetnames` order. -/
abbrev Workbook := List Worksheet

/-- `" | ".join([str(cell) if cell is not None else "" for cell in row])`
(line 183). -/
def formatRowText (row : List (Option String)) : String :=
  String.intercalate " | " (row.map (fun c => match c with | some s => s | none => ""))

/-- Lines 186-187: `if len(row_text) > 110: row_text = row_text[:107] + "..."`.
Both bounds are hard-coded literals; no geometry value enters. -/
def truncateRowText (s : String) : String :=
  if 110 < s.length then String.mk (s.data.take 107) ++ "..." else s

/-- The text actually drawn for one spreadsheet row (lines 183-189). -/
def officeRowText (row : List (Option String)) : String :=
  truncateRowText (formatRowText row)

/-- One item drawn on a tabular page: a bold sheet header (line 177) or a
row line (line 189). -/
inductive OfficeLine where
  | sheetHeader (text : String)
  | rowLine (text : String)
deriving DecidableEq, Repr

/-- The canvas state inside `_office_to_pdf_pages`.  The float cursor
`y = A4_height - d` is tracked by its integer total decrement `d`
(every decrement in the source is an integer, and `A4` height is
`841.8897…`, so `y < 40 ↔ d ≥ 802` and `y < 60 ↔ d ≥ 782` exactly).
`hasCode` records whether anything (a draw or a `setFont`) was emitted
into the current page's content stream since the last `showPage`;
ReportLab's `save` flushes a final page exactly when it is true. -/
structure OfficeSt where
  pages : List (List OfficeLine)
  cur : List OfficeLine
  hasCode : Bool
  d : Nat
deriving DecidableEq, Repr

/-- Lines 181-196: draw one row, advance the cursor by 12, and break the page
when `y < 40`; the break is followed by `setFont`, so the fresh page's
content stream is non-empty. -/
def officeStepRow (st : OfficeSt) (row : List (Option String)) : OfficeSt :=
  let st1 : OfficeSt :=
    { st with cur := st.cur ++ [.rowLine (officeRowText row)], hasCode := true, d := st.d + 12 }
  if 802 ≤ st1.d then
    { pages := st1.pages ++ [st1.cur], cur := [], hasCode := true, d := 40 }
  else st1

/-- Lines 176-179: draw the bold sheet header `Sheet: <name> (<filename>)`
and advance the cursor by 25. -/
def officeSheetStart (fname : String) (st : OfficeSt) (ws : Worksheet) : OfficeSt :=
  { st with cur := st.cur ++ [.sheetHeader s!"Sheet: {ws.name} ({fname})"],
            hasCode := true, d := st.d + 25 }

/-- Lines 198-202: the spacer after a sheet (cursor −20) and the
between-sheet break when `y < 60`, which emits the current page and leaves
a fresh page with an empty content stream (no `setFont` follows here). -/
def officeSheetEnd (st2 : OfficeSt) : OfficeSt :=
  let st3 : OfficeSt := { st2 with d := st2.d + 20 }
  if 782 ≤ st3.d then
    { pages := st3.pages ++ [st3.cur], cur := [], hasCode := false, d := 40 }
  else st3

/-- Lines 173-202: one sheet: bold header, all rows, then the spacer and
possible between-sheet page break. -/
def officeSheet (fname : String) (st : OfficeSt) (ws : Worksheet) : OfficeSt :=
  officeSheetEnd (ws.rows.foldl officeStepRow (officeSheetStart fname st ws))

/-- Lines 167-207: render a loaded workbook into pages.  `y` starts at
`height - 40` (`d = 40`); after the sheet loop, `c.save()` flushes the
in-progress page exactly when its content stream is non-empty. -/
def officeRender (fname : String) (wb : Workbook) : List (List OfficeLine) :=
  let st := wb.foldl (officeSheet fname) ⟨[], [], false, 40⟩
  if st.hasCode then st.pages ++ [st.cur] else st.pages

/-! ### The page model and the per-category renderers -/

/-- How the placeholder card renders the file size (lines 236-244): the unit
is chosen by `size_bytes > 1024 * 1024` (strict), and an `OSError` from
`os.path.getsize` yields `"Unknown"`.  The two-decimal float formatting of
the number is abstracted; the chosen unit and the exact byte count are kept. -/
inductive SizeStr where
  | mb (bytes : Nat)
  | kb (bytes : Nat)
  | unknown
deriving DecidableEq, Repr

/-- The size field of the placeholder card; `stat` is `os.path.getsize`'s
result, `none` when it raises `OSError`. -/
def binSizeStr (stat : Option Nat) : SizeStr :=
  match stat with
  | none => .unknown
  | some n => if 1024 * 1024 < n then .mb n else .kb n

/-- One page of the final document. -/
inductive Page where
  /-- A page copied verbatim from a source PDF by `_append_pdf` (lines 83-87);
  `content` is the abstract payload of that source page. -/
  | pdfPage (src : String) (content : String)
  /-- The single page drawn by `_image_to_pdf_pages` (lines 89-101): page size
  equals the decoded image's native `(width, height)` and the image fills it. -/
  | imagePage (src : String) (w h : Nat)
  /-- A page produced by the text paginator. -/
  | textPage (tp : TextPage)
  /-- A page of pipe-delimited rows produced by the tabular renderer. -/
  | officePage (items : List OfficeLine)
  /-- The placeholder card of `_binary_to_pdf_pages` (lines 214-262) with the
  file's base name, its size, the `f"Format: {ext} File"` label built from the
  uppercased suffix, and the two fixed disclaimer lines (lines 255-256). -/
  | binaryCard (filename : String) (size : SizeStr) (fmt : String) (note1 note2 : String)
  /-- The diagnostic page of `_create_error_page` (lines 264-281), drawing
  `f"ERROR PROCESSING: {name}"` and `f"Details: {error}"`. -/
  | errorPage (filename : String) (reason : String)
deriving DecidableEq, Repr

/-- `_create_error_page` (lines 264-281): pure construction of one page from
the file name and the reason string; it performs no I/O and cannot fail. -/
def create_error_page (filepath error : String) : Page :=
  Page.errorPage (pyName filepath) error

/-- `_binary_to_pdf_pages` (lines 214-262): always exactly one card page. -/
def binary_to_pdf_pages (filepath : String) (stat : Option Nat) : List Page :=
  [Page.binaryCard (pyName filepath) (binSizeStr stat)
    s!"Format: {pyUpper (pyExt (pyName filepath))} File"
    "Note: This file cannot be rendered visually in PDF."
    "It has been included in this collection for reference."]

/-- The message of the missing-dependency error page (line 162). -/
def openpyxlMsg : String := "Missing library: openpyxl. Install to process Excel."

/-- `_office_to_pdf_pages` (lines 159-212).  With `openpyxl` missing and an
`.xlsx`/`.xls` path, it *returns normally* after adding one error page
(lines 161-163); a workbook-loading exception is likewise caught inside and
converted to one error page (lines 208-209); other office formats fall back
to the placeholder card (line 212).  The function never raises. -/
def office_to_pdf_pages (filepath : String) (hasOpenpyxl : Bool)
    (load : Except String Workbook) (stat : Option Nat) : List Page :=
  if ¬ hasOpenpyxl ∧ (pyEndsWith filepath ".xlsx" ∨ pyEndsWith filepath ".xls") then
    [create_error_page filepath openpyxlMsg]
  else if pyEndsWith filepath ".xlsx" ∨ pyEndsWith filepath ".xls" then
    match load with
    | .ok wb => (officeRender (pyName filepath) wb).map Page.officePage
    | .error e => [create_error_page filepath s!"Excel processing error: {e}"]
  else
    binary_to_pdf_pages filepath stat

/-! ### The merge loop (`UniversalProcessor.merge_all_to_pdf`, lines 35-81) -/

deriving instance DecidableEq for Except

/-- One input file together with what the external world delivers for it
during this run: the pypdf page payloads (or a parse exception), the
decoded image size (or a decode exception), the per-encoding text-read
outcomes, the loaded workbook (or a load exception), and the stat size
(`none` when `os.path.getsize` raises `OSError`).  Only the facet selected
by the file's category is consulted. -/
structure SourceFile where
  path : String
  pdfRead : Except String (List String)
  imageDecode : Except String (Nat × Nat)
  reads : List ReadAttempt
  xlsxLoad : Except String Workbook
  statSize : Option Nat
deriving DecidableEq, Repr

/-- `_append_pdf` (lines 83-87): copy the source document's pages verbatim,
in order; a pypdf exception propagates to the per-item handler.  Library
exceptions are modelled as occurring before any page is appended (the other
renderers draw into a byte buffer and append only afterwards; `_append_pdf`
iterates the reader directly, so a source that fails midway through page
iteration is modelled as failing atomically). -/
def append_pdf (filepath : String) (pdfRead : Except String (List String)) :
    Except String (List Page) :=
  match pdfRead with
  | .ok contents => .ok (contents.map (Page.pdfPage filepath))
  | .error e => .error e

/-- `_image_to_pdf_pages` (lines 89-101): exactly one page sized to the
image's native dimensions; a decode exception propagates. -/
def image_to_pdf_pages (filepath : String) (decode : Except String (Nat × Nat)) :
    Except String (List Page) :=
  match decode with
  | .ok wh => .ok [Page.imagePage filepath wh.1 wh.2]
  | .error e => .error e

/-- The dispatch inside the per-item `try` of `merge_all_to_pdf`
(lines 52-65): route on `get_file_category`; the `document` branch also
requires `fpath.lower().endswith('.pdf')`; `binary`, `unknown` and non-PDF
documents all reach `_binary_to_pdf_pages`.  `.error` means the selected
renderer raised.  `hasOpenpyxl` is the module-level `HAS_OPENPYXL` flag
(lines 20-24). -/
def dispatchItem (hasOpenpyxl : Bool) (it : SourceFile) : Except String (List Page) :=
  let category := get_file_category it.path
  if category = "document" ∧ pyEndsWith (pyLower it.path) ".pdf" then
    append_pdf it.path it.pdfRead
  else if category = "image" then
    image_to_pdf_pages it.path it.imageDecode
  else if category = "text" then
    .ok ((text_to_pdf_pages it.path it.reads).map Page.textPage)
  else if category = "office" then
    .ok (office_to_pdf_pages it.path hasOpenpyxl it.xlsxLoad it.statSize)
  else if category = "binary" then
    .ok (binary_to_pdf_pages it.path it.statSize)
  else
    .ok (binary_to_pdf_pages it.path it.statSize)

/-- The pages one input contributes to the output: on a normal return, the
renderer's pages; when the renderer raised, the single error page appended
by the `except` handler (lines 68-71). -/
def itemPages (hasOpenpyxl : Bool) (it : SourceFile) : List Page :=
  match dispatchItem hasOpenpyxl it with
  | .ok ps => ps
  | .error e => [create_error_page it.path e]

/-- The contribution of one input to `success_count` (line 67): `1` exactly
when the dispatch returned without raising. -/
def succFlag (hasOpenpyxl : Bool) (it : SourceFile) : Nat :=
  match dispatchItem hasOpenpyxl it with
  | .ok _ => 1
  | .error _ => 0

/-- The loop body of `merge_all_to_pdf` (lines 48-71) acting on the
accumulated `(success_count, writer pages)`. -/
def mergeStep (hasOpenpyxl : Bool) (acc : Nat × List Page) (it : SourceFile) :
    Nat × List Page :=
  match dispatchItem hasOpenpyxl it with
  | .ok ps => (acc.1 + 1, acc.2 ++ ps)
  | .error e => (acc.1, acc.2 ++ [create_error_page it.path e])

/-- What `merge_all_to_pdf` returns and leaves behind: the `(bool, message)`
pair (lines 77, 81), the pages written to the destination, and whether the
destination file was created. -/
structure MergeResult where
  ok : Bool
  successCount : Nat
  message : String
  pages : List Page
  fileWritten : Bool
deriving DecidableEq, Repr

/-- `merge_all_to_pdf` (lines 35-81) in an environment where the destination
write succeeds (the outer `except` at lines 79-81 covers only destination
I/O failure: the per-item `try` catches every renderer exception, so no
exception escapes the loop).  Note there is no emptiness check: an empty
input list runs the loop zero times and still opens and writes the
destination (lines 74-75), producing a zero-page PDF and `True`. -/
def merge_all_to_pdf (hasOpenpyxl : Bool) (filepaths : List SourceFile) : MergeResult :=
  let r := filepaths.foldl (mergeStep hasOpenpyxl) (0, [])
  let cnt := r.1
  { ok := true
    successCount := cnt
    message := s!"Merged {cnt} files into PDF."
    pages := r.2
    fileWritten := true }

/-! ### Spec-side definitions for the geometry-sensitivity claims -/

/-- The spec's `PageGeometrySpec` value object (spec §3): page width/height,
font family and size, and the show-page-numbers flag.  The source never
builds such a value: `_text_to_pdf_pages` and `_office_to_pdf_pages` use the
fixed `A4` page size, fixed fonts and hard-coded layout literals. -/
structure PageGeometrySpec where
  width : Nat
  height : Nat
  fontFamily : String
  fontSize : Nat
  showPageNumbers : Bool
deriving DecidableEq, Repr

/-- The wrap width the text renderer would use under a given geometry.  The
source ignores any geometry: line 130 fixes `chars_per_line = 90`; the
constant function expresses exactly that independence. -/
def charsPerLineOf (_g : PageGeometrySpec) : Nat := chars_per_line

/-- The page capacity the text renderer would use under a given geometry.
The source ignores any geometry: line 124 fixes `max_lines = 55`. -/
def linesPerPageOf (_g : PageGeometrySpec) : Nat := max_lines

/-- The row-truncation character budget the tabular renderer would use under
a given page width.  The source ignores the width: line 186 compares against
the literal `110`. -/
def rowBudgetOf (_pageWidth : Nat) : Nat := 110

/-- Doubling the font size of a geometry (all other fields unchanged). -/
def doubleFont (g : PageGeometrySpec) : PageGeometrySpec :=
  { g with fontSize := 2 * g.fontSize }

/-! ### Auxiliary predicates and concrete inputs used by the theorems -/

/-- All wrapped chunks of a consecutive group of logical lines, in order. -/
def chunksOfLines (ls : List String) : List String :=
  (ls.map (fun l => wrapChunks (sanitizeLine l))).flatten

/-- Every row line drawn on a tabular page fits the 110-character budget. -/
def rowLinesOk (pg : List OfficeLine) : Prop :=
  ∀ t, OfficeLine.rowLine t ∈ pg → t.length ≤ 110

/-- The row-budget invariant for the whole canvas state. -/
def officeStOk (st : OfficeSt) : Prop :=
  (∀ pg ∈ st.pages, rowLinesOk pg) ∧ rowLinesOk st.cur

/-- A text file whose read succeeds with content `"hello"` on the first
encoding; the other environment facets are never consulted by its category. -/
def txtFile : SourceFile :=
  ⟨"a.txt", .error "", .error "", [.success "hello"], .error "", none⟩

/-- A spreadsheet file; with `HAS_OPENPYXL = False` its workbook facet is
never consulted. -/
def xlsxFile : SourceFile :=
  ⟨"b.xlsx", .error "", .error "", [], .error "", none⟩

/-- An image file whose decode raises. -/
def badImgFile : SourceFile :=
  ⟨"bad.png", .error "", .error "decode failed", [], .error "", none⟩

/-- A text file for which every encoding attempt raises `UnicodeDecodeError`,
so `read_file_safe` returns `(None, …)`. -/
def emptyTxtFile : SourceFile :=
  ⟨"e.txt", .error "", .error "", [.decodeError, .decodeError, .decodeError, .decodeError],
   .error "", none⟩

/-- Text content of exactly `max_lines` one-character lines (so `k = 1`,
with no wrapping). -/
def c55 : String := String.intercalate "\n" (List.replicate 55 "a")

/-- Text content of 54 one-character lines followed by one 91-character
line, which wraps into two chunks at the page boundary. -/
def cWrap : String :=
  String.intercalate "\n" (List.replicate 54 "a") ++ "\n" ++ String.mk (List.replicate 91 'b')

/-- A geometry with the A4 width/height in whole points and font size 10
(the font size the source's `max_lines` comment refers to). -/
def g10 : PageGeometrySpec := ⟨595, 842, "Helvetica", 10, false⟩

/-- A single-sheet workbook whose one row formats to 111 characters. -/
def wb111 : Workbook := [⟨"Sheet1", [[some (String.mk (List.replicate 111 'x'))]]⟩]

/-! ### Helper lemmas -/

set_option maxRecDepth 100000

theorem wrapChunks_eq_single (s : String) (h : s.length ≤ chars_per_line) :
    wrapChunks s = [s] := by
  obtain ⟨data⟩ := s
  match data with
  | [] => rfl
  | c :: cs =>
    have h' : (c :: cs).length ≤ chars_per_line := h
    show wrapChunks ⟨c :: cs⟩ = [⟨c :: cs⟩]
    unfold wrapChunks
    show (match chunksAux (cs.length + 1) (c :: cs) with | [] => [""] | l => l) = _
    rw [show chunksAux (cs.length + 1) (c :: cs)
          = String.mk ((c :: cs).take chars_per_line)
            :: chunksAux cs.length ((c :: cs).drop chars_per_line) from rfl,
        List.take_of_length_le h', List.drop_eq_nil_of_le h']
    simp [chunksAux]

theorem pagGo_cons (name hdr : String) (cur : List String) (l : String) (ls : List String) :
    pagGo name hdr cur (l :: ls)
      = if max_lines ≤ (cur ++ wrapChunks (sanitizeLine l)).length then
          ⟨hdr, cur ++ wrapChunks (sanitizeLine l)⟩ :: pagGo name (contHeader name) [] ls
        else pagGo name hdr (cur ++ wrapChunks (sanitizeLine l)) ls := rfl

theorem pagGo_flush_block (name hdr : String) (rest : List String) :
    ∀ (block cur : List String), block ≠ [] →
      cur.length + block.length = max_lines →
      (∀ l ∈ block, (sanitizeLine l).length ≤ chars_per_line) →
      pagGo name hdr cur (block ++ rest)
        = ⟨hdr, cur ++ block.map sanitizeLine⟩ :: pagGo name (contHeader name) [] rest := by
  intro block
  induction block with
  | nil => intro cur hne; exact absurd rfl hne
  | cons l bs ih =>
    intro cur _ hlen hshort
    have hw : wrapChunks (sanitizeLine l) = [sanitizeLine l] :=
      wrapChunks_eq_single _ (hshort l (List.mem_cons_self l bs))
    cases bs with
    | nil =>
      show pagGo name hdr cur (l :: rest) = _
      rw [pagGo_cons, hw]
      have hond : max_lines ≤ (cur ++ [sanitizeLine l]).length := by
        simp only [List.length_cons, List.length_nil] at hlen
        simp [List.length_append]; omega
      rw [if_pos hond]
      simp
    | cons b bs' =>
      show pagGo name hdr cur (l :: ((b :: bs') ++ rest)) = _
      rw [pagGo_cons, hw]
      have hlt : ¬ max_lines ≤ (cur ++ [sanitizeLine l]).length := by
        simp only [List.length_cons] at hlen
        simp [List.length_append]; omega
      rw [if_neg hlt]
      rw [ih (cur ++ [sanitizeLine l]) (by simp)
            (by simp only [List.length_cons] at hlen ⊢; simp [List.length_append]; omega)
            (fun x hx => hshort x (List.mem_cons_of_mem _ hx))]
      simp

theorem pagGo_exact (name : String) :
    ∀ (k : Nat) (hdr : String) (lines : List String),
      lines.length = max_lines * k →
      (∀ l ∈ lines, (sanitizeLine l).length ≤ chars_per_line) →
      (pagGo name hdr [] lines).length = k + 1 ∧
      (∀ i, i < k → ((pagGo name hdr [] lines).get? i).map (fun p => p.lines.length)
          = some max_lines) ∧
      ((pagGo name hdr [] lines).get? k).map TextPage.lines = some [] ∧
      ((pagGo name hdr [] lines).get? 0).map TextPage.header = some hdr ∧
      (∀ i, 1 ≤ i → i ≤ k → ((pagGo name hdr [] lines).get? i).map TextPage.header
          = some (contHeader name)) := by
  intro k
  induction k with
  | zero =>
    intro hdr lines hlen _
    have hnil : lines = [] := List.eq_nil_of_length_eq_zero (by simpa using hlen)
    subst hnil
    refine ⟨rfl, ?_, rfl, rfl, ?_⟩
    · intro i hi; omega
    · intro i h1 h2; omega
  | succ k ih =>
    intro hdr lines hlen hshort
    have htake : (lines.take max_lines).length = max_lines := by
      rw [List.length_take]; simp only [max_lines] at hlen ⊢; omega
    have hdlen : (lines.drop max_lines).length = max_lines * k := by
      rw [List.length_drop]; simp only [max_lines] at hlen ⊢; omega
    have hne : lines.take max_lines ≠ [] := by
      intro h; rw [h] at htake; simp [max_lines] at htake
    have hsplit := (List.take_append_drop max_lines lines).symm
    have hstep : pagGo name hdr [] lines
        = ⟨hdr, [] ++ (lines.take max_lines).map sanitizeLine⟩
            :: pagGo name (contHeader name) [] (lines.drop max_lines) := by
      conv_lhs => rw [hsplit]
      exact pagGo_flush_block name hdr (lines.drop max_lines) (lines.take max_lines) [] hne
        (by simpa using htake)
        (fun l hl => hshort l (by rw [hsplit]; exact List.mem_append_left _ hl))
    obtain ⟨ihlen, ihmid, ihlast, ihhead, ihtail⟩ :=
      ih (contHeader name) (lines.drop max_lines) hdlen
        (fun l hl => hshort l (by rw [hsplit]; exact List.mem_append_right _ hl))
    rw [hstep]
    refine ⟨by simpa using ihlen, ?_, by simpa using ihlast, by simp, ?_⟩
    · intro i hi
      cases i with
      | zero =>
        simp [htake]
        simp only [max_lines] at hlen ⊢
        omega
      | succ j => simpa using ihmid j (by omega)
    · intro i h1 h2
      cases i with
      | zero => omega
      | succ j =>
        cases j with
        | zero => simpa using ihhead
        | succ j' => simpa using ihtail (j' + 1) (by omega) (by omega)

theorem pagGo_partition (name : String) :
    ∀ (lines : List String) (hdr : String) (cur : List String),
      ∃ (first : List String) (segs : List (List String)),
        first ++ segs.flatten = lines ∧
        (pagGo name hdr cur lines).map TextPage.lines
          = (cur ++ chunksOfLines first) :: segs.map chunksOfLines := by
  intro lines
  induction lines with
  | nil =>
    intro hdr cur
    exact ⟨[], [], rfl, by simp [pagGo, chunksOfLines]⟩
  | cons l ls ih =>
    intro hdr cur
    by_cases hfull : max_lines ≤ (cur ++ wrapChunks (sanitizeLine l)).length
    · obtain ⟨first, segs, hjoin, hmap⟩ := ih (contHeader name) []
      refine ⟨[l], first :: segs, by simp [hjoin], ?_⟩
      rw [pagGo_cons, if_pos hfull]
      simp only [List.map_cons, hmap]
      simp [chunksOfLines]
    · obtain ⟨first, segs, hjoin, hmap⟩ := ih hdr (cur ++ wrapChunks (sanitizeLine l))
      refine ⟨l :: first, segs, by simp [hjoin], ?_⟩
      rw [pagGo_cons, if_neg hfull]
      rw [hmap]
      simp [chunksOfLines, List.append_assoc]

theorem foldl_mergeStep (hX : Bool) :
    ∀ (items : List SourceFile) (c : Nat) (acc : List Page),
      items.foldl (mergeStep hX) (c, acc)
        = (c + (items.map (succFlag hX)).sum, acc ++ (items.map (itemPages hX)).flatten) := by
  intro items
  induction items with
  | nil => intro c acc; simp
  | cons it ts ih =>
    intro c acc
    show List.foldl (mergeStep hX) (mergeStep hX (c, acc) it) ts = _
    cases h : dispatchItem hX it with
    | ok ps =>
      rw [show mergeStep hX (c, acc) it = (c + 1, acc ++ ps) from by simp [mergeStep, h]]
      rw [ih]
      simp [succFlag, itemPages, h, Nat.add_comm, Nat.add_assoc, Nat.add_left_comm]
    | error e =>
      rw [show mergeStep hX (c, acc) it
            = (c, acc ++ [create_error_page it.path e]) from by simp [mergeStep, h]]
      rw [ih]
      simp [succFlag, itemPages, h]

theorem merge_pages_eq (hX : Bool) (items : List SourceFile) :
    (merge_all_to_pdf hX items).pages = (items.map (itemPages hX)).flatten := by
  simp [merge_all_to_pdf, foldl_mergeStep]

theorem merge_count_eq (hX : Bool) (items : List SourceFile) :
    (merge_all_to_pdf hX items).successCount = (items.map (succFlag hX)).sum := by
  simp [merge_all_to_pdf, foldl_mergeStep]

theorem sum_succFlag_of_ok (hX : Bool) :
    ∀ (l : List SourceFile), (∀ it ∈ l, ∃ ps, dispatchItem hX it = .ok ps) →
      (l.map (succFlag hX)).sum = l.length := by
  intro l
  induction l with
  | nil => intro; simp
  | cons it ts ih =>
    intro h
    obtain ⟨ps, hps⟩ := h it (List.mem_cons_self it ts)
    simp [succFlag, hps, ih (fun x hx => h x (List.mem_cons_of_mem _ hx))]
    omega

theorem truncateRowText_le (s : String) : (truncateRowText s).length ≤ 110 := by
  unfold truncateRowText
  by_cases h : 110 < s.length
  · rw [if_pos h]
    rw [String.length_append]
    have h1 : (String.mk (s.data.take 107)).length = min 107 s.data.length := by
      show (s.data.take 107).length = _
      exact List.length_take 107 s.data
    rw [h1]
    have h3 : ("..." : String).length = 3 := rfl
    rw [h3]
    omega
  · rw [if_neg h]; omega

theorem officeStepRow_ok (st : OfficeSt) (row : List (Option String))
    (h : officeStOk st) : officeStOk (officeStepRow st row) := by
  obtain ⟨hp, hc⟩ := h
  have hc' : rowLinesOk (st.cur ++ [.rowLine (officeRowText row)]) := by
    intro t ht
    rcases List.mem_append.1 ht with h1 | h1
    · exact hc t h1
    · simp at h1
      rw [h1]
      exact truncateRowText_le _
  unfold officeStepRow
  by_cases hd : 802 ≤ st.d + 12
  · rw [if_pos (by simpa using hd)]
    refine ⟨?_, by intro t ht; simp at ht⟩
    intro pg hpg
    rcases List.mem_append.1 hpg with h1 | h1
    · exact hp pg h1
    · simp at h1; rw [h1]; exact hc'
  · rw [if_neg (by simpa using hd)]
    exact ⟨hp, hc'⟩

theorem officeFoldRows_ok (rows : List (List (Option String))) :
    ∀ st, officeStOk st → officeStOk (rows.foldl officeStepRow st) := by
  induction rows with
  | nil => intro st h; exact h
  | cons r rs ih => intro st h; exact ih _ (officeStepRow_ok st r h)

theorem officeSheetStart_ok (fname : String) (st : OfficeSt) (ws : Worksheet)
    (h : officeStOk st) : officeStOk (officeSheetStart fname st ws) := by
  obtain ⟨hp, hc⟩ := h
  refine ⟨hp, ?_⟩
  intro t ht
  rcases List.mem_append.1 ht with h2 | h2
  · exact hc t h2
  · simp at h2

theorem officeSheetEnd_ok (st : OfficeSt) (h : officeStOk st) :
    officeStOk (officeSheetEnd st) := by
  obtain ⟨hp, hc⟩ := h
  unfold officeSheetEnd
  by_cases hd : 782 ≤ st.d + 20
  · rw [if_pos (by simpa using hd)]
    refine ⟨?_, by intro t ht; simp at ht⟩
    intro pg hpg
    rcases List.mem_append.1 hpg with h1 | h1
    · exact hp pg h1
    · simp at h1; rw [h1]; exact hc
  · rw [if_neg (by simpa using hd)]
    exact ⟨hp, hc⟩

theorem officeSheet_ok (fname : String) (st : OfficeSt) (ws : Worksheet)
    (h : officeStOk st) : officeStOk (officeSheet fname st ws) :=
  officeSheetEnd_ok _ (officeFoldRows_ok ws.rows _ (officeSheetStart_ok fname st ws h))

theorem officeFoldSheets_ok (fname : String) (wb : Workbook) :
    ∀ st, officeStOk st → officeStOk (wb.foldl (officeSheet fname) st) := by
  induction wb with
  | nil => intro st h; exact h
  | cons ws rest ih => intro st h; exact ih _ (officeSheet_ok fname st ws h)

theorem officeRender_rows_ok (fname : String) (wb : Workbook) :
    ∀ pg ∈ officeRender fname wb, rowLinesOk pg := by
  have h := officeFoldSheets_ok fname wb ⟨[], [], false, 40⟩
    ⟨by intro pg hpg; simp at hpg, by intro t ht; simp at ht⟩
  obtain ⟨hp, hc⟩ := h
  intro pg hpg
  unfold officeRender at hpg
  by_cases hcode : (wb.foldl (officeSheet fname) ⟨[], [], false, 40⟩).hasCode
  · rw [if_pos hcode] at hpg
    rcases List.mem_append.1 hpg with h1 | h1
    · exact hp pg h1
    · simp at h1; rw [h1]; exact hc
  · rw [if_neg hcode] at hpg
    exact hp pg hpg

/-! ### Claim theorems -/

/-- C1: for every environment flag and input list, the output's page sequence
is the concatenation, in input order, of the per-item page sequences (the
renderer's pages on a normal return, the single error page when it raised);
consequently the total page count is the sum of per-item page counts and no
page is reordered, dropped, or merged across items. -/
theorem merge_output_order_preserved (hX : Bool) (items : List SourceFile) :
    (merge_all_to_pdf hX items).pages = (items.map (itemPages hX)).flatten ∧
    (merge_all_to_pdf hX items).pages.length
      = (items.map (fun it => (itemPages hX it).length)).sum := by
  refine ⟨merge_pages_eq hX items, ?_⟩
  rw [merge_pages_eq]
  simp [List.length_flatten, Function.comp]
  rfl

/-- C2: an input whose selected renderer raises contributes exactly the
single error page built by `_create_error_page` (a total function of the
path and reason, so the substitution itself cannot throw), placed at that
item's position; the items before and after it are processed normally, and
the run still returns `True` — no renderer exception escapes the per-item
dispatch. -/
theorem renderer_exception_isolated (hX : Bool) (pre post : List SourceFile)
    (it : SourceFile) (e : String) (h : dispatchItem hX it = .error e) :
    itemPages hX it = [create_error_page it.path e] ∧
    (merge_all_to_pdf hX (pre ++ it :: post)).pages
      = (pre.map (itemPages hX)).flatten
          ++ create_error_page it.path e :: (post.map (itemPages hX)).flatten ∧
    (merge_all_to_pdf hX (pre ++ it :: post)).successCount
      = ((pre ++ post).map (succFlag hX)).sum ∧
    (merge_all_to_pdf hX (pre ++ it :: post)).ok = true := by
  refine ⟨by simp [itemPages, h], ?_, ?_, rfl⟩
  · rw [merge_pages_eq]
    simp [itemPages, h]
  · rw [merge_count_eq]
    simp [succFlag, h]

/-- C2 witness: a PNG whose decode raises, between a good text file and the
end of the list. -/
theorem renderer_exception_isolated_witness :
    dispatchItem true badImgFile = Except.error "decode failed" ∧
    (merge_all_to_pdf true [txtFile, badImgFile]).pages
      = ([txtFile].map (itemPages true)).flatten
          ++ create_error_page badImgFile.path "decode failed"
            :: (([] : List SourceFile).map (itemPages true)).flatten := by
  have h : dispatchItem true badImgFile = Except.error "decode failed" := by decide
  exact ⟨h, (renderer_exception_isolated true [txtFile] [] badImgFile "decode failed" h).2.1⟩

/-- C3 counterexample: on the empty input list the run does not fail — it
returns `True` with the message `"Merged 0 files into PDF."` and writes a
destination file containing zero pages. -/
theorem empty_input_claim_refuted :
    (merge_all_to_pdf true []).ok = true ∧
    (merge_all_to_pdf true []).fileWritten = true ∧
    (merge_all_to_pdf true []).pages = [] ∧
    (merge_all_to_pdf true []).message = "Merged 0 files into PDF." := by decide

/-- C3 amended: the compositor itself never rejects an empty input list;
`merge_all_to_pdf` on zero inputs succeeds, creating a zero-page destination
file (empty-list rejection exists only in the CLI/GUI callers, which refuse
to start a run with no files). -/
theorem empty_input_merge_succeeds (hX : Bool) :
    merge_all_to_pdf hX []
      = ⟨true, 0, "Merged 0 files into PDF.", [], true⟩ := by
  cases hX <;> decide

/-- C4 counterexample: content of exactly `max_lines × 1` short lines
produces 2 pages, not 1 — the page-full break after the last line starts a
headed continuation page that the final flush emits with zero content
lines. -/
theorem pagination_exact_claim_refuted :
    (pySplitLines c55).length = max_lines * 1 ∧
    (∀ l ∈ pySplitLines c55, (sanitizeLine l).length ≤ chars_per_line) ∧
    (textPagesOf "f.txt" c55).length = 2 ∧
    ¬ (textPagesOf "f.txt" c55).length = 1 ∧
    ((textPagesOf "f.txt" c55).get? 1).map TextPage.lines = some [] := by decide

/-- C4 amended: for content of exactly `max_lines × k` physical lines
(`k ≥ 1`, no line wrapping), the paginator produces exactly `k + 1` pages:
the first `k` each carry exactly `max_lines` content lines, page one under
the main header and all later pages under the continuation header, and the
final page is a continuation page with zero content lines. -/
theorem text_pagination_exact_amended (name content : String) (k : Nat)
    (_hk : 1 ≤ k)
    (hlen : (pySplitLines content).length = max_lines * k)
    (hshort : ∀ l ∈ pySplitLines content, (sanitizeLine l).length ≤ chars_per_line) :
    (textPagesOf name content).length = k + 1 ∧
    (∀ i, i < k → ((textPagesOf name content).get? i).map (fun p => p.lines.length)
        = some max_lines) ∧
    ((textPagesOf name content).get? k).map TextPage.lines = some [] ∧
    ((textPagesOf name content).get? 0).map TextPage.header = some (mainHeader name) ∧
    (∀ i, 1 ≤ i → i ≤ k → ((textPagesOf name content).get? i).map TextPage.header
        = some (contHeader name)) :=
  pagGo_exact name k (mainHeader name) (pySplitLines content) hlen hshort

/-- C4 witness: the 55-line content at `k = 1`. -/
theorem text_pagination_exact_amended_witness :
    (textPagesOf "f.txt" c55).length = 1 + 1 ∧
    ((textPagesOf "f.txt" c55).get? 1).map TextPage.lines = some [] := by
  have h := text_pagination_exact_amended "f.txt" c55 1 (by decide) (by decide) (by decide)
  exact ⟨h.1, h.2.2.1⟩

/-- C5 counterexample: doubling the font size of a concrete geometry leaves
both layout parameters unchanged at their hard-coded values, so neither is
recomputed from the geometry and neither strictly decreases. -/
theorem geometry_sensitivity_refuted :
    (doubleFont g10).fontSize = 2 * g10.fontSize ∧
    charsPerLineOf (doubleFont g10) = charsPerLineOf g10 ∧
    linesPerPageOf (doubleFont g10) = linesPerPageOf g10 ∧
    ¬ charsPerLineOf (doubleFont g10) < charsPerLineOf g10 ∧
    ¬ linesPerPageOf (doubleFont g10) < linesPerPageOf g10 := by decide

/-- C5 amended: `chars_per_line` and `max_lines` are the hard-coded
constants 90 and 55 (aimed at A4 at 10 pt per the source comment); they do
not depend on any `PageGeometrySpec`, and doubling `fontSize` leaves both
unchanged. -/
theorem layout_constants_amended :
    ∀ g : PageGeometrySpec,
      charsPerLineOf g = 90 ∧ linesPerPageOf g = 55 ∧
      charsPerLineOf (doubleFont g) = charsPerLineOf g ∧
      linesPerPageOf (doubleFont g) = linesPerPageOf g :=
  fun _ => ⟨rfl, rfl, rfl, rfl⟩

/-- C6 counterexample: a two-item list whose single unrenderable item is a
spreadsheet with the openpyxl dependency missing completes with
`success_count = 2`, not `N − 1 = 1` — the missing-dependency branch adds
its error page and returns normally, so the loop still counts the item as
succeeded (total pages are nevertheless the valid item's pages plus 1). -/
theorem failure_counters_claim_refuted :
    (merge_all_to_pdf false [txtFile, xlsxFile]).successCount = 2 ∧
    ¬ (merge_all_to_pdf false [txtFile, xlsxFile]).successCount = 2 - 1 ∧
    (merge_all_to_pdf false [txtFile, xlsxFile]).pages
      = [Page.textPage ⟨"File: a.txt", ["hello"]⟩,
         Page.errorPage "b.xlsx" openpyxlMsg] := by decide

/-- C6 amended: when the unrenderable item's renderer *raises*, the run
completes with `succeededCount = N − 1`, `failedCount = 1` and total pages
equal to the valid items' pages plus one; but a spreadsheet whose optional
dependency is missing is counted as *succeeded* (the error page is added
inside the office renderer, which returns normally), so for that case only
the page count — not the counters — matches the original claim. -/
theorem failure_isolation_amended :
    (∀ (hX : Bool) (pre post : List SourceFile) (bad : SourceFile) (e : String),
      (∀ it ∈ pre ++ post, ∃ ps, dispatchItem hX it = .ok ps) →
      dispatchItem hX bad = .error e →
      (merge_all_to_pdf hX (pre ++ bad :: post)).successCount = (pre ++ post).length ∧
      (pre ++ bad :: post).length
          - (merge_all_to_pdf hX (pre ++ bad :: post)).successCount = 1 ∧
      (merge_all_to_pdf hX (pre ++ bad :: post)).pages.length
        = (((pre ++ post).map (itemPages hX)).flatten).length + 1) ∧
    (∀ ms : SourceFile, get_file_category ms.path = "office" →
      pyEndsWith ms.path ".xlsx" = true →
      dispatchItem false ms = .ok [create_error_page ms.path openpyxlMsg] ∧
      succFlag false ms = 1) := by
  constructor
  · intro hX pre post bad e hok hbad
    have hpre : (pre.map (succFlag hX)).sum = pre.length :=
      sum_succFlag_of_ok hX pre (fun x hx => hok x (List.mem_append_left _ hx))
    have hpost : (post.map (succFlag hX)).sum = post.length :=
      sum_succFlag_of_ok hX post (fun x hx => hok x (List.mem_append_right _ hx))
    have hbadf : succFlag hX bad = 0 := by simp [succFlag, hbad]
    have hbadp : itemPages hX bad = [create_error_page bad.path e] := by
      simp [itemPages, hbad]
    have hcnt : (merge_all_to_pdf hX (pre ++ bad :: post)).successCount
        = (pre ++ post).length := by
      rw [merge_count_eq]
      simp [hbadf, hpre, hpost]
    refine ⟨hcnt, by rw [hcnt]; simp; omega, ?_⟩
    rw [merge_pages_eq]
    simp [hbadp]
    omega
  · intro ms hcat hxl
    have hd : dispatchItem false ms = .ok [create_error_page ms.path openpyxlMsg] := by
      simp only [dispatchItem, hcat]
      simp [office_to_pdf_pages, hxl]
    exact ⟨hd, by simp [succFlag, hd]⟩

/-- C6 witness: the raising case at `N = 2` (one good text file, one bad
image), and the missing-dependency spreadsheet case. -/
theorem failure_isolation_amended_witness :
    (merge_all_to_pdf true [txtFile, badImgFile]).successCount = 1 ∧
    (merge_all_to_pdf true [txtFile, badImgFile]).pages.length
      = (([txtFile].map (itemPages true)).flatten).length + 1 ∧
    dispatchItem false xlsxFile = .ok [create_error_page xlsxFile.path openpyxlMsg] := by
  have hok : ∀ it ∈ [txtFile] ++ ([] : List SourceFile),
      ∃ ps, dispatchItem true it = .ok ps := by
    intro it hit
    simp at hit
    subst hit
    exact ⟨[Page.textPage ⟨"File: a.txt", ["hello"]⟩], by decide⟩
  have h1 := failure_isolation_amended.1 true [txtFile] [] badImgFile "decode failed"
    hok (by decide)
  have h2 := failure_isolation_amended.2 xlsxFile (by decide) (by decide)
  exact ⟨h1.1, h1.2.2, h2.1⟩

/-- C7 counterexample: the truncation budget is the literal 110 for any page
width — halving or doubling the width leaves it unchanged — while a concrete
111-character row is indeed truncated to 107 characters plus the ellipsis;
so truncation happens, but its width is a fixed constant, not derived from
the geometry's page width. -/
theorem row_budget_claim_refuted :
    rowBudgetOf 595 = 110 ∧ rowBudgetOf 1190 = 110 ∧
    rowBudgetOf 1190 = rowBudgetOf 595 ∧
    officeRowText [some (String.mk (List.replicate 111 'x'))]
      = String.mk (List.replicate 107 'x') ++ "..." := by decide

/-- C7 amended: every formatted row longer than 110 characters is drawn as
its first 107 characters suffixed with `"..."`, rows of at most 110
characters are drawn unchanged, every row line on every rendered tabular
page fits the 110-character budget, and that budget is the fixed constant
110 regardless of the page width. -/
theorem row_truncation_amended :
    (∀ row : List (Option String), 110 < (formatRowText row).length →
      officeRowText row = String.mk ((formatRowText row).data.take 107) ++ "...") ∧
    (∀ row : List (Option String), (formatRowText row).length ≤ 110 →
      officeRowText row = formatRowText row) ∧
    (∀ (fname : String) (wb : Workbook), ∀ pg ∈ officeRender fname wb, rowLinesOk pg) ∧
    (∀ w : Nat, rowBudgetOf w = 110) := by
  refine ⟨?_, ?_, ?_, fun w => rfl⟩
  · intro row h
    simp [officeRowText, truncateRowText, h]
  · intro row h
    unfold officeRowText truncateRowText
    rw [if_neg (by omega)]
  · intro fname wb
    exact officeRender_rows_ok fname wb

/-- C7 witness: the 111-character row and the page it lands on. -/
theorem row_truncation_amended_witness :
    officeRowText [some (String.mk (List.replicate 111 'x'))]
      = String.mk ((formatRowText [some (String.mk (List.replicate 111 'x'))]).data.take 107)
          ++ "..." ∧
    rowLinesOk [OfficeLine.sheetHeader "Sheet: Sheet1 (b.xlsx)",
      OfficeLine.rowLine (String.mk (List.replicate 107 'x') ++ "...")] := by
  refine ⟨row_truncation_amended.1 _ (by decide), ?_⟩
  exact row_truncation_amended.2.2.1 "b.xlsx" wb111 _ (by decide)

/-- C8 counterexample: at exactly 1 MiB (`1048576` bytes) the card renders
the size in KB, because the source tests `size_bytes > 1024 * 1024`
strictly; the claim's "at least 1 MiB" boundary is wrong at this input. -/
theorem placeholder_size_boundary_refuted :
    binSizeStr (some (1024 * 1024)) = SizeStr.kb (1024 * 1024) ∧
    ¬ binSizeStr (some (1024 * 1024)) = SizeStr.mb (1024 * 1024) ∧
    binary_to_pdf_pages "c.exe" (some (1024 * 1024))
      = [Page.binaryCard "c.exe" (SizeStr.kb (1024 * 1024)) "Format: .EXE File"
          "Note: This file cannot be rendered visually in PDF."
          "It has been included in this collection for reference."] := by decide

/-- C8 amended: for every path and stat outcome the placeholder renderer
yields exactly one card page carrying the file's base name, the size
(rendered in MB only when *strictly greater* than 1 MiB, in KB otherwise,
and as Unknown when the stat raised), the uppercased-extension format
label, and the two fixed disclaimer lines; it never fails. -/
theorem placeholder_card_amended (filepath : String) (stat : Option Nat) :
    binary_to_pdf_pages filepath stat
      = [Page.binaryCard (pyName filepath) (binSizeStr stat)
          s!"Format: {pyUpper (pyExt (pyName filepath))} File"
          "Note: This file cannot be rendered visually in PDF."
          "It has been included in this collection for reference."] ∧
    binSizeStr none = SizeStr.unknown ∧
    (∀ n : Nat, 1024 * 1024 < n → binSizeStr (some n) = SizeStr.mb n) ∧
    (∀ n : Nat, n ≤ 1024 * 1024 → binSizeStr (some n) = SizeStr.kb n) := by
  refine ⟨rfl, rfl, ?_, ?_⟩
  · intro n h
    simp [binSizeStr, h]
  · intro n h
    simp only [binSizeStr]
    rw [if_neg (by omega)]

/-- C8 witness: a 2 MiB executable. -/
theorem placeholder_card_amended_witness :
    binSizeStr (some 2097152) = SizeStr.mb 2097152 ∧
    (binary_to_pdf_pages "c.exe" (some 2097152)).length = 1 :=
  ⟨(placeholder_card_amended "c.exe" (some 2097152)).2.2.1 2097152 (by decide),
   by rw [(placeholder_card_amended "c.exe" (some 2097152)).1]; rfl⟩

/-- C9: a text-category input whose content reads back empty or whose read
fails in every fallback encoding contributes zero pages, gets no error page,
and is still counted as succeeded. -/
theorem empty_text_zero_pages (hX : Bool) (it : SourceFile)
    (hcat : get_file_category it.path = "text")
    (hread : (read_file_safe it.reads).1 = none ∨ (read_file_safe it.reads).1 = some "") :
    dispatchItem hX it = .ok [] ∧ itemPages hX it = [] ∧ succFlag hX it = 1 ∧
    (merge_all_to_pdf hX [it]).pages = [] ∧
    (merge_all_to_pdf hX [it]).successCount = 1 := by
  have htxt : text_to_pdf_pages it.path it.reads = [] := by
    unfold text_to_pdf_pages
    rcases hread with h | h <;> rw [h]
    rfl
  have hd : dispatchItem hX it = .ok [] := by
    simp only [dispatchItem, hcat]
    simp [htxt]
  have hip : itemPages hX it = [] := by simp [itemPages, hd]
  have hsf : succFlag hX it = 1 := by simp [succFlag, hd]
  refine ⟨hd, hip, hsf, ?_, ?_⟩
  · rw [merge_pages_eq]; simp [hip]
  · rw [merge_count_eq]; simp [hsf]

/-- C9 witness: a text file for which every encoding attempt raises a
decode error, so `read_file_safe` returns `None`. -/
theorem empty_text_zero_pages_witness :
    itemPages true emptyTxtFile = [] ∧
    (merge_all_to_pdf true [emptyTxtFile]).pages = [] ∧
    (merge_all_to_pdf true [emptyTxtFile]).successCount = 1 := by
  have h := empty_text_zero_pages true emptyTxtFile (by decide) (Or.inl (by decide))
  exact ⟨h.2.1, h.2.2.2.1, h.2.2.2.2⟩

/-- C10: every page's content lines are the concatenation of *all* wrapped
chunks of a consecutive run of logical lines — a logical line's chunks are
never split across pages, so page breaks happen only at logical-line
granularity — and, concretely, a logical line wrapping near the page
boundary makes the page exceed `max_lines`: the first page of `cWrap`
carries 56 physical lines. -/
theorem page_break_at_logical_lines :
    (∀ name content : String, ∃ segs : List (List String),
      segs.flatten = pySplitLines content ∧
      (textPagesOf name content).map TextPage.lines = segs.map chunksOfLines) ∧
    ((textPagesOf "f.txt" cWrap).get? 0).map (fun p => p.lines.length) = some 56 ∧
    max_lines < 56 := by
  refine ⟨?_, by decide, by decide⟩
  intro name content
  obtain ⟨first, segs, hjoin, hmap⟩ :=
    pagGo_partition name (pySplitLines content) (mainHeader name) []
  exact ⟨first :: segs, by simpa using hjoin, by simpa using hmap⟩
